import Mathlib

/-!
# Verification of the model-loading and attribution-fallback workflow of `app1.py`

Shallow embedding of the Streamlit risk-prediction script `src/app1.py`.
Pure numeric values are modelled as rationals (`ℚ`); Python exceptions are
modelled as `Except PyExc`; external library behaviour (joblib, shap,
xgboost) is abstracted into record-of-functions parameters (`FS`, `ShapLib`)
so that the script's own control flow — the part under verification — is
embedded exactly.
-/

set_option autoImplicit false

namespace App1

/-- A Python exception: its class name (`kind`) and its message (`msg`). -/
structure PyExc where
  kind : String
  msg : String
deriving Repr, DecidableEq

/-- The lower-level tree-ensemble representation returned by
`model.get_booster()`.  `ensembleId` stands for the opaque ensemble data;
`featureNames` models the booster's `feature_names` attribute, which the
lower-level representation does not always retain (`none` = absent). -/
structure Booster where
  ensembleId : Nat
  featureNames : Option (List String)

/-- The opaque trained classifier (Model Artifact).
`featureNamesIn` models the sklearn wrapper attribute `feature_names_in_`
(`none` = attribute absent, so accessing it raises).  `predictProba` models
`model.predict_proba` on a single-row frame, returning the probability pair
(class 0, class 1).  `getBooster` models `model.get_booster()`, which can
raise for a non-xgboost model. -/
structure Model where
  featureNamesIn : Option (List String)
  predictProba : List (String × ℚ) → ℚ × ℚ
  getBooster : Except PyExc Booster

/-- What `joblib.load('xgb_smpp_model.pkl')` deserializes on success: either
a mapping (with the `'model'` / `'feature_names'` keys possibly absent, in
which case subscripting raises `KeyError`) or a bare model object. -/
inductive Package where
  | pkgDict (modelEntry : Option Model) (featureEntry : Option (List String))
  | bare (m : Model)

/-- The filesystem / deserializer boundary: the outcome of
`joblib.load('xgb_smpp_model.pkl')`.  `.error` covers both a missing file
(`FileNotFoundError`) and a deserialization exception. -/
structure FS where
  joblibLoad : Except PyExc Package

/-- Embedding of `load_model` (`app1.py` lines 22-36): load the package
inside `try`; if it is a dict extract the `'model'` and `'feature_names'`
entries, otherwise take the bare object and recover the feature list from
`feature_names_in_`; any exception is caught and `(None, None)` returned. -/
def load_model (fs : FS) : Option Model × Option (List String) :=
  match fs.joblibLoad with
  | .error _ => (none, none)
  | .ok (.pkgDict modelEntry featureEntry) =>
    match modelEntry, featureEntry with
    | some m, some fns => (some m, some fns)
    | _, _ => (none, none)
  | .ok (.bare m) =>
    match m.featureNamesIn with
    | some fns => (some m, some fns)
    | none => (none, none)

/-- Embedding of the sidebar loop (`app1.py` lines 51-65): the Python dict
`input_data` built by inserting, for each `col` in `feature_names` in order,
the widget value for that column.  `w` is the UI boundary supplying the value
entered for each feature name. -/
def input_data (w : String → ℚ) (fns : List String) : String → Option ℚ :=
  fns.foldl (fun d c => fun k => if k = c then some (w c) else d k) (fun _ => none)

/-- Pandas column selection `df[fns]`: look every requested column up, in
the requested order; a missing column raises (`none`). -/
def selectCols (d : String → Option ℚ) : List String → Option (List (String × ℚ))
  | [] => some []
  | c :: cs =>
    match d c, selectCols d cs with
    | some v, some rest => some ((c, v) :: rest)
    | _, _ => none

/-- Embedding of `input_df = pd.DataFrame([input_data])[feature_names]`
(`app1.py` line 68): the single-row frame, reindexed to the feature order. -/
def input_df (w : String → ℚ) (fns : List String) : Option (List (String × ℚ)) :=
  selectCols (input_data w fns) fns

/-- Embedding of the scoring expression
`model.predict_proba(input_df)[:, 1][0]` (`app1.py` line 81): the
positive-class entry of the single row's probability pair. -/
def score (m : Model) (df : List (String × ℚ)) : ℚ :=
  (m.predictProba df).2

/-- The Model Artifact's probability contract (spec data model: "a scalar
probability in [0,1] for the positive class"): each predicted pair is a
probability distribution over the two classes. -/
def Model.validProba (m : Model) : Prop :=
  ∀ df, 0 ≤ (m.predictProba df).1 ∧ 0 ≤ (m.predictProba df).2 ∧
    (m.predictProba df).1 + (m.predictProba df).2 = 1

/-- Embedding of the risk label (`app1.py` line 84):
`"高风险 (High Risk)" if prediction_prob > 0.5 else "低风险 (Low Risk)"`. -/
def risk_level (p : ℚ) : String :=
  if p > 1/2 then "高风险 (High Risk)" else "低风险 (Low Risk)"

/-- The shap library boundary.  `explain` models the whole tier-1 `try`
body (`shap.Explainer(model)` applied to `input_df`, plus the waterfall
render), returning the contribution values or raising.  `treeExplain`
models `shap.TreeExplainer(booster).shap_values(input_df)` plus the bar
render. -/
structure ShapLib where
  explain : Model → List (String × ℚ) → Except PyExc (List ℚ)
  treeExplain : Booster → List (String × ℚ) → Except PyExc (List ℚ)

/-- Modelled from the spec: the "recognized `IncompatibleFormat` error kind"
of design note 9 — the incompatibility-class failure signal of the primary
attribution method.  The repository has no such classifier; the spec names
the kind, so it is modelled as an exception-class test. -/
def isIncompatibilityError (e : PyExc) : Bool :=
  e.kind = "IncompatibleFormat"

/-- What the attribution panel ends up showing: a tier-1 waterfall chart, a
tier-2 bar chart (labels are the column names the chart is keyed to), or
the terminal failure message. -/
inductive AttrOutcome where
  | tier1Chart (labels : List String) (vals : List ℚ)
  | tier2Chart (labels : List String) (vals : List ℚ)
  | failed (msg : String)
deriving Repr, DecidableEq

/-- Embedding of the fallback `try` body (`app1.py` lines 117-120):
`booster = model.get_booster()`, then `booster.feature_names =
feature_names` (explicit re-attachment of the Feature Schema), then the
tree-ensemble-specialized attribution call; exceptions propagate to the
inner `except`. -/
def tier2Result (lib : ShapLib) (m : Model) (fns : List String)
    (df : List (String × ℚ)) : Except PyExc (List ℚ) :=
  match m.getBooster with
  | .error e => .error e
  | .ok b => lib.treeExplain { b with featureNames := some fns } df

/-- Embedding of the attribution section (`app1.py` lines 97-128): try the
general-purpose explainer; on any exception run the booster fallback; on
any exception there show the failure message.  The second component counts
the attribution tiers attempted (1 = primary only, 2 = fallback entered). -/
def shapSection (lib : ShapLib) (m : Model) (fns : List String)
    (df : List (String × ℚ)) : AttrOutcome × Nat :=
  match lib.explain m df with
  | .ok vals => (.tier1Chart (df.map Prod.fst) vals, 1)
  | .error _ =>
    match tier2Result lib m fns df with
    | .ok vals => (.tier2Chart (df.map Prod.fst) vals, 2)
    | .error fe => (.failed fe.msg, 2)

/-- The labels of the chart the attribution panel rendered, when one was
rendered at all. -/
def AttrOutcome.chartLabels : AttrOutcome → Option (List String)
  | .tier1Chart labels _ => some labels
  | .tier2Chart labels _ => some labels
  | .failed _ => none

/-- Everything the predict-button handler renders. -/
structure Render where
  prob : ℚ
  riskLabel : String
  highWarning : Bool
  attribution : AttrOutcome
  tiersAttempted : Nat
deriving Repr, DecidableEq

/-- Embedding of the predict-button handler (`app1.py` lines 79-128):
compute the probability, derive the risk label and the warning banner
(both with the strict `> 0.5` test), then run the attribution section. -/
def predictClick (lib : ShapLib) (m : Model) (fns : List String)
    (df : List (String × ℚ)) : Render :=
  let p := score m df
  let attr := shapSection lib m fns df
  { prob := p
    riskLabel := risk_level p
    highWarning := decide (p > 1/2)
    attribution := attr.1
    tiersAttempted := attr.2 }

/-- Process state: the `st.cache_resource` cache holding the result of the
first `load_model` call, `none` before the first run. -/
structure ProcState where
  cache : Option (Option Model × Option (List String))

/-- Embedding of the `@st.cache_resource` wrapper around `load_model`: a
cache hit returns the stored pair unchanged; a miss runs `load_model` and
stores its result. -/
def cachedLoad (fs : FS) (s : ProcState) :
    (Option Model × Option (List String)) × ProcState :=
  match s.cache with
  | some r => (r, s)
  | none => (load_model fs, ⟨some (load_model fs)⟩)

/-- The observable outcome of one script run: halted at `st.stop` (no
prediction UI), idle (button not clicked), crashed with an uncaught
exception, or a full render. -/
inductive RunOutput where
  | halted
  | idle
  | crashed (reason : String)
  | rendered (r : Render)
deriving Repr, DecidableEq

/-- The script body after model loading (`app1.py` lines 39-130): halt when
the model is `None`; otherwise iterating over a `None` feature list or a
missing column would raise uncaught; otherwise render the prediction on a
click and the idle prompt without one. -/
def runBody (lib : ShapLib) (w : String → ℚ) (clicked : Bool)
    (lr : Option Model × Option (List String)) : RunOutput :=
  match lr with
  | (none, _) => .halted
  | (some _, none) => .crashed "TypeError: NoneType object is not iterable"
  | (some m, some fns) =>
    match input_df w fns with
    | none => .crashed "KeyError"
    | some df => if clicked then .rendered (predictClick lib m fns df) else .idle

/-- One full top-to-bottom run of the script (Streamlit reruns it on every
interaction): cached model load, then the body. -/
def scriptRun (fs : FS) (lib : ShapLib) (w : String → ℚ) (clicked : Bool)
    (s : ProcState) : RunOutput × ProcState :=
  let r := cachedLoad fs s
  (runBody lib w clicked r.1, r.2)

/-! ## Helper lemmas -/

/-- The dict built by the sidebar loop maps a key to the widget value for
that key exactly when the key occurs among the feature names; later
insertions shadow earlier ones, but the inserted value depends only on the
key, so the lookup result does not. -/
theorem input_data_foldl (w : String → ℚ) (fns : List String)
    (d : String → Option ℚ) (k : String) :
    fns.foldl (fun d c => fun x => if x = c then some (w c) else d x) d k
      = if k ∈ fns then some (w k) else d k := by
  induction fns generalizing d with
  | nil => simp
  | cons c cs ih =>
    simp only [List.foldl_cons, ih, List.mem_cons]
    by_cases hk : k ∈ cs
    · simp [hk]
    · by_cases hkc : k = c <;> simp [hk, hkc]

theorem input_data_eq (w : String → ℚ) (fns : List String) (k : String) :
    input_data w fns k = if k ∈ fns then some (w k) else none :=
  input_data_foldl w fns _ k

/-- Column selection succeeds, in order, when every requested column is
present with the expected value. -/
theorem selectCols_eq (d : String → Option ℚ) (v : String → ℚ)
    (fns : List String) (h : ∀ k, k ∈ fns → d k = some (v k)) :
    selectCols d fns = some (fns.map fun c => (c, v c)) := by
  induction fns with
  | nil => rfl
  | cons c cs ih =>
    have hc : d c = some (v c) := h c (by simp)
    have hcs : selectCols d cs = some (cs.map fun c => (c, v c)) :=
      ih fun k hk => h k (by simp [hk])
    simp [selectCols, hc, hcs]

/-- The Input Record actually assembled: one `(name, value)` pair per
Feature Schema entry, in schema order. -/
theorem input_df_eq (w : String → ℚ) (fns : List String) :
    input_df w fns = some (fns.map fun c => (c, w c)) := by
  unfold input_df
  refine selectCols_eq _ w fns fun k hk => ?_
  rw [input_data_eq]
  simp [hk]

theorem shapSection_tier1 (lib : ShapLib) (m : Model) (fns : List String)
    (df : List (String × ℚ)) (vals : List ℚ)
    (h : lib.explain m df = .ok vals) :
    shapSection lib m fns df = (.tier1Chart (df.map Prod.fst) vals, 1) := by
  unfold shapSection
  rw [h]

theorem shapSection_tier2 (lib : ShapLib) (m : Model) (fns : List String)
    (df : List (String × ℚ)) (e : PyExc) (vals : List ℚ)
    (h1 : lib.explain m df = .error e)
    (h2 : tier2Result lib m fns df = .ok vals) :
    shapSection lib m fns df = (.tier2Chart (df.map Prod.fst) vals, 2) := by
  unfold shapSection
  rw [h1, h2]

theorem shapSection_failed (lib : ShapLib) (m : Model) (fns : List String)
    (df : List (String × ℚ)) (e : PyExc) (fe : PyExc)
    (h1 : lib.explain m df = .error e)
    (h2 : tier2Result lib m fns df = .error fe) :
    shapSection lib m fns df = (.failed fe.msg, 2) := by
  unfold shapSection
  rw [h1, h2]

/-- After any `cachedLoad`, the cache is populated and a second
`cachedLoad` is a hit returning the same pair and the same state. -/
theorem cachedLoad_stable (fs : FS) (s : ProcState) :
    cachedLoad fs (cachedLoad fs s).2 = cachedLoad fs s := by
  obtain ⟨c⟩ := s
  cases c <;> rfl

theorem load_model_error (fs : FS) (e : PyExc) (h : fs.joblibLoad = .error e) :
    load_model fs = (none, none) := by
  simp only [load_model, h]

theorem load_model_dict_missing (fs : FS) (mo : Option Model)
    (fo : Option (List String)) (h : fs.joblibLoad = .ok (.pkgDict mo fo))
    (hmf : mo = none ∨ fo = none) :
    load_model fs = (none, none) := by
  simp only [load_model, h]
  rcases hmf with rfl | rfl
  · cases fo <;> rfl
  · cases mo <;> rfl

theorem load_model_bare_no_attr (fs : FS) (m : Model)
    (h : fs.joblibLoad = .ok (.bare m)) (hm : m.featureNamesIn = none) :
    load_model fs = (none, none) := by
  simp only [load_model, h, hm]

theorem load_model_dict_ok (fs : FS) (m : Model) (fns : List String)
    (h : fs.joblibLoad = .ok (.pkgDict (some m) (some fns))) :
    load_model fs = (some m, some fns) := by
  simp only [load_model, h]

theorem load_model_bare_ok (fs : FS) (m : Model) (fns : List String)
    (h : fs.joblibLoad = .ok (.bare m)) (hm : m.featureNamesIn = some fns) :
    load_model fs = (some m, some fns) := by
  simp only [load_model, h, hm]

/-! ## Concrete objects for witnesses and counterexamples -/

/-- A concrete booster, with the feature names absent, as the lower-level
representation does not always retain them. -/
def boosterW : Booster :=
  { ensembleId := 0, featureNames := none }

/-- A concrete Model Artifact: records its input features, predicts the
fixed probability pair (0.3, 0.7), and exposes a booster. -/
def modelW : Model :=
  { featureNamesIn := some ["AGE", "SEX"]
    predictProba := fun _ => (3/10, 7/10)
    getBooster := .ok boosterW }

/-- A shap boundary whose primary explainer succeeds. -/
def libOkW : ShapLib :=
  { explain := fun _ df => .ok (df.map fun _ => 1)
    treeExplain := fun _ df => .ok (df.map fun _ => 0) }

/-- A shap boundary whose primary explainer raises and whose tree
explainer succeeds with one value per column. -/
def libFallbackW : ShapLib :=
  { explain := fun _ _ => .error ⟨"Exception", "shap failed"⟩
    treeExplain := fun _ df => .ok (df.map fun _ => 0) }

/-- A shap boundary on which both tiers raise. -/
def libFailW : ShapLib :=
  { explain := fun _ _ => .error ⟨"Exception", "shap failed"⟩
    treeExplain := fun _ _ => .error ⟨"SHAPError", "tree explainer failed"⟩ }

/-- A shap boundary whose primary explainer raises an error unrelated to
format incompatibility. -/
def libUnrelatedW : ShapLib :=
  { explain := fun _ _ => .error ⟨"ZeroDivisionError", "unrelated tier-1 defect"⟩
    treeExplain := fun _ df => .ok (df.map fun _ => 0) }

/-- The expected file is absent. -/
def fsMissing : FS :=
  { joblibLoad := .error ⟨"FileNotFoundError", "xgb_smpp_model.pkl not found"⟩ }

/-- A well-formed dict bundle. -/
def fsDict : FS :=
  { joblibLoad := .ok (.pkgDict (some modelW) (some ["AGE", "SEX"])) }

/-- A dict bundle whose feature list is empty. -/
def fsEmptySchema : FS :=
  { joblibLoad := .ok (.pkgDict (some modelW) (some [])) }

/-- A bare model bundle. -/
def fsBare : FS :=
  { joblibLoad := .ok (.bare modelW) }

/-- A warm process state: the cache already holds a loaded pair. -/
def stateW : ProcState :=
  { cache := some (some modelW, some ["AGE", "SEX"]) }

/-! ## Claims -/

/-- **C1**: when the primary attribution method raises, the fallback
extracts the booster, re-attaches the Feature Schema names before invoking
the tree-ensemble explainer (the invocation hypothesis is stated at the
booster with `featureNames := some fns`), and on success the Attribution
Result has exactly one contribution per Feature Schema entry; when tier 1
succeeds the section stops after one attempted tier, so the fallback is
never attempted.  `hwf` is the shap library contract: a successful tree
explanation has one value per input column. -/
theorem C1_fallback_schema_alignment (lib : ShapLib) (m : Model)
    (fns : List String) (df : List (String × ℚ))
    (hcols : df.map Prod.fst = fns)
    (hwf : ∀ b d vals, lib.treeExplain b d = .ok vals → vals.length = d.length) :
    (∀ e b vals,
      lib.explain m df = .error e →
      m.getBooster = .ok b →
      lib.treeExplain { b with featureNames := some fns } df = .ok vals →
      shapSection lib m fns df = (.tier2Chart fns vals, 2) ∧
        vals.length = fns.length) ∧
    (∀ vals, lib.explain m df = .ok vals →
      shapSection lib m fns df = (.tier1Chart fns vals, 1)) := by
  constructor
  · intro e b vals h1 hb h2
    have ht2 : tier2Result lib m fns df = .ok vals := by
      unfold tier2Result
      rw [hb]
      exact h2
    refine ⟨?_, ?_⟩
    · rw [shapSection_tier2 lib m fns df e vals h1 ht2, hcols]
    · have hlen := hwf _ _ _ h2
      rw [hlen, ← hcols, List.length_map]
  · intro vals h
    rw [shapSection_tier1 lib m fns df vals h, hcols]

theorem C1_fallback_schema_alignment_witness :
    shapSection libFallbackW modelW ["AGE", "SEX"] [("AGE", 50), ("SEX", 1)]
      = (.tier2Chart ["AGE", "SEX"] [0, 0], 2) ∧
    ([(0 : ℚ), 0]).length = (["AGE", "SEX"]).length :=
  (C1_fallback_schema_alignment libFallbackW modelW ["AGE", "SEX"]
      [("AGE", 50), ("SEX", 1)] rfl
      (fun _ d vals h => by
        injection h with h2
        rw [← h2, List.length_map])).1
    ⟨"Exception", "shap failed"⟩ boosterW [0, 0] rfl rfl rfl

/-- **C2**: every load-time failure — missing file or deserialization
error, a mapping lacking the model or feature-list key, or a bare model
without the recorded input-feature attribute — makes `load_model` return
the single failure signal `(None, None)`, and the script run from a cold
start halts at `st.stop`, so no prediction UI is reachable. -/
theorem C2_load_failure_halts (fs : FS) (lib : ShapLib) (w : String → ℚ)
    (clicked : Bool)
    (h : (∃ e, fs.joblibLoad = .error e) ∨
         (∃ mo fo, fs.joblibLoad = .ok (.pkgDict mo fo) ∧
           (mo = none ∨ fo = none)) ∨
         (∃ m, fs.joblibLoad = .ok (.bare m) ∧ m.featureNamesIn = none)) :
    load_model fs = (none, none) ∧
    (scriptRun fs lib w clicked ⟨none⟩).1 = .halted := by
  have hl : load_model fs = (none, none) := by
    rcases h with ⟨e, he⟩ | ⟨mo, fo, hok, hmf⟩ | ⟨m, hok, hm⟩
    · exact load_model_error fs e he
    · exact load_model_dict_missing fs mo fo hok hmf
    · exact load_model_bare_no_attr fs m hok hm
  refine ⟨hl, ?_⟩
  simp only [scriptRun, cachedLoad, runBody, hl]

theorem C2_load_failure_halts_witness :
    load_model fsMissing = (none, none) ∧
    (scriptRun fsMissing libOkW (fun _ => 0) true ⟨none⟩).1 = .halted :=
  C2_load_failure_halts fsMissing libOkW (fun _ => 0) true
    (Or.inl ⟨⟨"FileNotFoundError", "xgb_smpp_model.pkl not found"⟩, rfl⟩)

/-- **C3**: when both attribution tiers fail, the render still carries the
Prediction Result (probability and risk label computed from the model and
the Input Record, unchanged by the attribution failure), the attribution
panel shows the failure message of the second tier, and exactly the two
tiers were attempted. -/
theorem C3_both_tiers_fail_render (lib : ShapLib) (m : Model)
    (fns : List String) (df : List (String × ℚ)) (e fe : PyExc)
    (h1 : lib.explain m df = .error e)
    (h2 : tier2Result lib m fns df = .error fe) :
    (predictClick lib m fns df).attribution = .failed fe.msg ∧
    (predictClick lib m fns df).prob = score m df ∧
    (predictClick lib m fns df).riskLabel = risk_level (score m df) ∧
    (predictClick lib m fns df).tiersAttempted = 2 := by
  have hs := shapSection_failed lib m fns df e fe h1 h2
  refine ⟨?_, rfl, rfl, ?_⟩
  · show (shapSection lib m fns df).1 = .failed fe.msg
    rw [hs]
  · show (shapSection lib m fns df).2 = 2
    rw [hs]

theorem C3_both_tiers_fail_render_witness :
    (predictClick libFailW modelW ["AGE"] [("AGE", 50)]).attribution
      = .failed "tree explainer failed" ∧
    (predictClick libFailW modelW ["AGE"] [("AGE", 50)]).prob
      = score modelW [("AGE", 50)] ∧
    (predictClick libFailW modelW ["AGE"] [("AGE", 50)]).riskLabel
      = risk_level (score modelW [("AGE", 50)]) ∧
    (predictClick libFailW modelW ["AGE"] [("AGE", 50)]).tiersAttempted = 2 :=
  C3_both_tiers_fail_render libFailW modelW ["AGE"] [("AGE", 50)]
    ⟨"Exception", "shap failed"⟩ ⟨"SHAPError", "tree explainer failed"⟩ rfl rfl

/-- **C4**: for an Input Record whose columns match the Feature Schema,
the scoring expression — the positive-class entry of the classifier's
probability pair — lies in [0, 1], given the Model Artifact's contract
that each predicted pair is a probability distribution. -/
theorem C4_score_unit_interval (m : Model) (fns : List String)
    (df : List (String × ℚ)) (_hcols : df.map Prod.fst = fns)
    (hm : m.validProba) :
    0 ≤ score m df ∧ score m df ≤ 1 := by
  obtain ⟨h0, h1, hsum⟩ := hm df
  unfold score
  exact ⟨h1, by linarith⟩

theorem C4_score_unit_interval_witness :
    0 ≤ score modelW [("AGE", 50), ("SEX", 1)] ∧
    score modelW [("AGE", 50), ("SEX", 1)] ≤ 1 :=
  C4_score_unit_interval modelW ["AGE", "SEX"] [("AGE", 50), ("SEX", 1)] rfl
    (fun _ => ⟨by norm_num [modelW], by norm_num [modelW], by norm_num [modelW]⟩)

theorem shapSection_chart_labels (lib : ShapLib) (m : Model)
    (fns : List String) (df : List (String × ℚ)) (labels : List String)
    (h : ((shapSection lib m fns df).1).chartLabels = some labels) :
    labels = df.map Prod.fst := by
  unfold shapSection at h
  cases he : lib.explain m df with
  | ok vals =>
    rw [he] at h
    simp only [AttrOutcome.chartLabels, Option.some.injEq] at h
    exact h.symm
  | error e =>
    rw [he] at h
    cases ht : tier2Result lib m fns df with
    | ok vals =>
      rw [ht] at h
      simp only [AttrOutcome.chartLabels, Option.some.injEq] at h
      exact h.symm
    | error fe =>
      rw [ht] at h
      exact Option.noConfusion h

theorem map_fst_pairing (w : String → ℚ) (fns : List String) :
    (fns.map fun c => (c, w c)).map Prod.fst = fns := by
  induction fns with
  | nil => rfl
  | cons c cs ih => simp only [List.map_cons, ih]

/-- **C5**: the Input Record assembled from the sidebar values has exactly
the Feature Schema's columns in the Feature Schema's order, and any chart
the attribution section renders for it is labeled in that same order. -/
theorem C5_input_record_order (w : String → ℚ) (fns : List String) :
    input_df w fns = some (fns.map fun c => (c, w c)) ∧
    (fns.map fun c => (c, w c)).map Prod.fst = fns ∧
    (∀ lib m labels,
      ((shapSection lib m fns (fns.map fun c => (c, w c))).1).chartLabels
        = some labels →
      labels = fns) := by
  refine ⟨input_df_eq w fns, map_fst_pairing w fns, ?_⟩
  intro lib m labels h
  have := shapSection_chart_labels lib m fns (fns.map fun c => (c, w c)) labels h
  rw [this, map_fst_pairing w fns]

theorem C5_input_record_order_witness :
    input_df (fun _ => 1) ["AGE", "SEX"] = some [("AGE", 1), ("SEX", 1)] ∧
    (["AGE", "SEX"] : List String) = ["AGE", "SEX"] := by
  constructor
  · have h := (C5_input_record_order (fun _ => 1) ["AGE", "SEX"]).1
    simpa using h
  · exact (C5_input_record_order (fun _ => 1) ["AGE", "SEX"]).2.2
      libOkW modelW ["AGE", "SEX"] rfl

/-- **C6 counterexample**: the loader never checks the feature list for
emptiness, so a mapping bundle carrying an empty feature list loads
successfully with an empty schema — refuting "in either successful case
... the schema is non-empty". -/
theorem C6_nonempty_schema_counterexample :
    ¬ (∀ (fs : FS) (m : Model) (fns : List String),
        load_model fs = (some m, some fns) → fns ≠ []) := fun h =>
  h fsEmptySchema modelW [] rfl rfl

/-- **C6 (amended)**: when the bundle is a mapping with both entries
present, the loader returns the mapping's model entry and exactly its
feature-list entry as the schema; when it is a bare model with the
recorded input-feature attribute, it returns that object and exactly that
attribute's list.  In either successful case the model is non-null and
the schema is exactly the source list (hence order-preserving, and
non-empty precisely when the source list is); emptiness is not checked. -/
theorem C6_loader_success_cases (fs : FS) (m : Model) (fns : List String) :
    (fs.joblibLoad = .ok (.pkgDict (some m) (some fns)) →
      load_model fs = (some m, some fns)) ∧
    (fs.joblibLoad = .ok (.bare m) → m.featureNamesIn = some fns →
      load_model fs = (some m, some fns)) :=
  ⟨fun h => load_model_dict_ok fs m fns h,
   fun h hm => load_model_bare_ok fs m fns h hm⟩

theorem C6_loader_success_cases_witness :
    load_model fsDict = (some modelW, some ["AGE", "SEX"]) ∧
    load_model fsBare = (some modelW, some ["AGE", "SEX"]) :=
  ⟨(C6_loader_success_cases fsDict modelW ["AGE", "SEX"]).1 rfl,
   (C6_loader_success_cases fsBare modelW ["AGE", "SEX"]).2 rfl rfl⟩

/-- **C7**: a predict run on a warm cache leaves the process state exactly
as it was (the cached model pair is read-only, nothing else is written),
and re-running the script with the same inputs produces the identical
output — repeated scoring is deterministic. -/
theorem C7_scoring_idempotent (fs : FS) (lib : ShapLib) (w : String → ℚ)
    (clicked : Bool) (s : ProcState)
    (r : Option Model × Option (List String)) (hwarm : s.cache = some r) :
    (scriptRun fs lib w clicked s).2 = s ∧
    scriptRun fs lib w clicked ((scriptRun fs lib w clicked s).2)
      = scriptRun fs lib w clicked s := by
  obtain ⟨c⟩ := s
  cases c with
  | none => exact Option.noConfusion hwarm
  | some r' => exact ⟨rfl, rfl⟩

theorem C7_scoring_idempotent_witness :
    (scriptRun fsDict libOkW (fun _ => 1) true stateW).2 = stateW ∧
    scriptRun fsDict libOkW (fun _ => 1) true
        ((scriptRun fsDict libOkW (fun _ => 1) true stateW).2)
      = scriptRun fsDict libOkW (fun _ => 1) true stateW :=
  C7_scoring_idempotent fsDict libOkW (fun _ => 1) true stateW
    (some modelW, some ["AGE", "SEX"]) rfl

/-- **C8 counterexample**: the tier-1 handler is a broad `except
Exception`, so an error that is not of the recognized incompatibility
class — here a `ZeroDivisionError`, an unrelated defect — still triggers
the fallback, which runs to a tier-2 chart with both tiers attempted.
This refutes "dispatched only for a recognized incompatibility-class
error". -/
theorem C8_catchall_counterexample :
    isIncompatibilityError ⟨"ZeroDivisionError", "unrelated tier-1 defect"⟩
      = false ∧
    shapSection libUnrelatedW modelW ["AGE"] [("AGE", 50)]
      = (.tier2Chart ["AGE"] [0], 2) := by
  exact ⟨by decide, rfl⟩

/-- **C8 (amended)**: the fallback is dispatched for *every* exception the
tier-1 attempt raises, whatever its class — the handler is a broad
`except Exception` catch-all, so an unrelated tier-1 defect is also
converted into a fallback attempt, and the section never reports a tier-1
chart after any tier-1 exception. -/
theorem C8_fallback_on_any_exception (lib : ShapLib) (m : Model)
    (fns : List String) (df : List (String × ℚ)) (e : PyExc)
    (h : lib.explain m df = .error e) :
    (shapSection lib m fns df).2 = 2 ∧
    ∀ labels vals,
      (shapSection lib m fns df).1 ≠ .tier1Chart labels vals := by
  unfold shapSection
  rw [h]
  cases tier2Result lib m fns df <;> simp

theorem C8_fallback_on_any_exception_witness :
    (shapSection libUnrelatedW modelW ["SEX"] [("SEX", 2)]).2 = 2 ∧
    ∀ labels vals,
      (shapSection libUnrelatedW modelW ["SEX"] [("SEX", 2)]).1
        ≠ .tier1Chart labels vals :=
  C8_fallback_on_any_exception libUnrelatedW modelW ["SEX"] [("SEX", 2)]
    ⟨"ZeroDivisionError", "unrelated tier-1 defect"⟩ rfl

/-- **C9**: the displayed risk classification uses the fixed threshold 0.5
with a strict comparison: the high-risk label and the warning banner
appear exactly when the probability exceeds 1/2, and a probability of
exactly 1/2 is labeled low risk. -/
theorem C9_threshold_strict (p : ℚ) (lib : ShapLib) (m : Model)
    (fns : List String) (df : List (String × ℚ)) :
    (1/2 < p → risk_level p = "高风险 (High Risk)") ∧
    (p ≤ 1/2 → risk_level p = "低风险 (Low Risk)") ∧
    risk_level (1/2) = "低风险 (Low Risk)" ∧
    ((predictClick lib m fns df).highWarning = true ↔ 1/2 < score m df) ∧
    (predictClick lib m fns df).riskLabel = risk_level (score m df) := by
  refine ⟨?_, ?_, ?_, ?_, rfl⟩
  · intro h
    unfold risk_level
    rw [if_pos h]
  · intro h
    unfold risk_level
    rw [if_neg (not_lt.mpr h)]
  · norm_num [risk_level]
  · show decide (score m df > 1/2) = true ↔ 1/2 < score m df
    simp

theorem C9_threshold_strict_witness :
    risk_level (3/4) = "高风险 (High Risk)" ∧
    risk_level (1/2) = "低风险 (Low Risk)" ∧
    ((predictClick libOkW modelW ["AGE"] [("AGE", 50)]).highWarning = true ↔
      1/2 < score modelW [("AGE", 50)]) :=
  ⟨(C9_threshold_strict (3/4) libOkW modelW ["AGE"] [("AGE", 50)]).1
      (by norm_num),
   (C9_threshold_strict (1/2) libOkW modelW ["AGE"] [("AGE", 50)]).2.1
      (by norm_num),
   (C9_threshold_strict (1/2) libOkW modelW ["AGE"] [("AGE", 50)]).2.2.2.1⟩

/-- **C10**: `load_model` is total at its boundary — every exception path
is caught, and for every filesystem outcome it returns either the fully
populated pair or exactly `(None, None)`, never a mixed pair. -/
theorem C10_loader_total_pair (fs : FS) :
    load_model fs = (none, none) ∨
    ∃ m fns, load_model fs = (some m, some fns) := by
  obtain ⟨jl⟩ := fs
  rcases jl with e | p
  · exact Or.inl (load_model_error ⟨.error e⟩ e rfl)
  · rcases p with ⟨mo, fo⟩ | m
    · rcases mo with _ | m
      · exact Or.inl (load_model_dict_missing _ none fo rfl (Or.inl rfl))
      · rcases fo with _ | fns
        · exact Or.inl (load_model_dict_missing _ (some m) none rfl (Or.inr rfl))
        · exact Or.inr ⟨m, fns, load_model_dict_ok _ m fns rfl⟩
    · rcases hm : m.featureNamesIn with _ | fns
      · exact Or.inl (load_model_bare_no_attr _ m rfl hm)
      · exact Or.inr ⟨m, fns, load_model_bare_ok _ m fns rfl hm⟩

end App1
